import Mathlib

/-!
Shallow embedding of the trade-documentation workflow application
(OfficeApps): document state machines, audit-trail emission, line-item
amount computation and totals, sequential numbering, and the Packing-List
to Commercial-Invoice aggregation step.

Sources: `src/OfficeApps/models.py` and `src/OfficeApps/api.py`.

Conventions of the embedding:
- Database timestamps are abstract instants (`Nat`), passed in as `now`
  (the value of `timezone.now()` during the request).
- Users carry the three facts the role helpers `_is_maker` / `_is_checker`
  / `_is_admin` in api.py inspect: superuser flag and membership in the
  Maker / Checker groups.  All modelled endpoints are behind
  `IsAuthenticated`, so only authenticated users are modelled.
- Decimal values (Python `decimal.Decimal`) are modelled as `Rat`:
  Decimal arithmetic on `+` and `*` is exact rational arithmetic.
- A request handler is a function returning `Except ApiResponseError
  (doc × List AuditRow)`: `.ok` carries the saved document and the
  audit-trail rows inserted by the handler, `.error` carries the HTTP
  error response.  Every error branch in the source returns before any
  mutation or save, so an `.error` result leaves the stored row as it was.
-/

namespace OfficeApps

/-- An authenticated request user: the data inspected by the role helpers
`_is_maker`, `_is_checker`, `_is_admin` in api.py (lines 190-199). -/
structure User where
  id : Nat
  is_superuser : Bool
  in_maker_group : Bool
  in_checker_group : Bool
deriving DecidableEq, Repr

/-- api.py `_is_maker`: superuser or member of the "Maker" group. -/
def is_maker (u : User) : Bool := u.is_superuser || u.in_maker_group

/-- api.py `_is_checker`: superuser or member of the "Checker" group. -/
def is_checker (u : User) : Bool := u.is_superuser || u.in_checker_group

/-- api.py `_is_admin`: superuser. -/
def is_admin (u : User) : Bool := u.is_superuser

/-- An HTTP error response from a handler.  `forbidden` is a 403,
`badRequest` a 400, `notFound` a 404; `serverError` models an uncaught
Python exception escaping the handler (HTTP 500). -/
inductive ApiResponseError where
  | forbidden (detail : String)
  | badRequest (detail : String)
  | notFound (detail : String)
  | serverError (detail : String)
deriving DecidableEq, Repr

/-- One audit-trail row as created by `ProformaInvoiceAuditTrail.objects.create`
/ `CommercialInvoiceAuditTrail.objects.create`: the `ACTION_*` string
constant, acting user, `auto_now_add` timestamp, and notes (default ""). -/
structure AuditRow where
  action : String
  actor : Nat
  timestamp : Nat
  notes : String
deriving DecidableEq, Repr

/-- The stored document after a request: on success the saved document,
on an error response the untouched pre-request row (every error branch in
the source returns before mutating or saving). -/
def storedDoc {D A : Type} (pre : D) (r : Except ApiResponseError (D × List A)) : D :=
  match r with
  | .ok (d, _) => d
  | .error _ => pre

/-- Python `x or d` for an optional string (`None` and `""` are falsy). -/
def pyOrStr (o : Option String) (d : String) : String :=
  match o with
  | none => d
  | some s => if s = "" then d else s

/-- Python `x or d` for an optional Decimal (`None` and `0` are falsy). -/
def pyOrRat (o : Option Rat) (d : Rat) : Rat :=
  match o with
  | none => d
  | some q => if q = 0 then d else q

/-- Python `pat in s` (substring test), over the character list of `s`. -/
def isSubstrL (pat : List Char) : List Char → Bool
  | [] => pat.isEmpty
  | c :: t => pat.isPrefixOf (c :: t) || isSubstrL pat t

/-- Python `pat in s` on strings. -/
def pyContains (s pat : String) : Bool := isSubstrL pat.data s.data

/-- Python `s.startswith(p)`. -/
def pyStartsWith (s p : String) : Bool := p.data.isPrefixOf s.data

/-- Python whitespace test for `str.strip()`. -/
def isPySpace (c : Char) : Bool :=
  c = ' ' || c = '\t' || c = '\n' || c = '\x0d' || c = '\x0b' || c = '\x0c'

/-- Python `s.strip()`: drop leading and trailing whitespace. -/
def pyStrip (s : String) : String :=
  String.mk (((s.data.dropWhile isPySpace).reverse.dropWhile isPySpace).reverse)

/-!  Line items (ProformaInvoiceLineItem / CommercialInvoiceLineItem,
models.py lines 429-462 and 800-829).  The two classes have identical
quantity / unit-price / amount behaviour, so one structure models both. -/

/-- A line item row of either invoice type.  `quantity` and
`unit_price_usd` are `Option` because the Python attributes can be `None`
in memory (the save hook guards on exactly that). -/
structure LineItem where
  id : Nat
  is_active : Bool
  deactivated_at : Option Nat
  quantity : Option Rat
  unit_price_usd : Option Rat
  amount_usd : Rat
deriving DecidableEq, Repr

/-- Amount computation in `ProformaInvoiceLineItem.save` /
`CommercialInvoiceLineItem.save` (models.py 447-455 and 816-823).  When
quantity and unit price are both non-None the code attempts
`(quantity * unit_price).quantize(unit_price.as_tuple())`; `as_tuple()`
returns a `DecimalTuple`, which `Decimal.quantize` rejects with
`TypeError`, so the `except` branch always runs and stores the exact,
unrounded product `quantity * unit_price`.  When either operand is None
the stored amount is left as it was. -/
def computeAmount (quantity unit_price : Option Rat) (amount : Rat) : Rat :=
  match quantity, unit_price with
  | some q, some p => q * p
  | _, _ => amount

/-- A line item as stored by the model save hook: amount recomputed from
quantity and unit price. -/
def savedLineItem (it : LineItem) : LineItem :=
  { it with amount_usd := computeAmount it.quantity it.unit_price_usd it.amount_usd }

/-- Sum of the amounts of the active line items: the `sum(item.amount_usd
for item in self.line_items.filter(is_active=True))` of `recalc_total`
(models.py 395-399 and 756-763). -/
def activeTotal (items : List LineItem) : Rat :=
  ((items.filter (·.is_active)).map (·.amount_usd)).sum

/-- Insert-or-replace a line item row by primary key: the effect on the
stored line-item set of saving an existing row (update) or a new row
(create). -/
def saveItemList (items : List LineItem) (it : LineItem) : List LineItem :=
  if items.any (fun j => decide (j.id = it.id)) then
    items.map (fun j => if j.id = it.id then it else j)
  else items ++ [it]

/-!  Proforma Invoice (models.py 301-427, api.py 202-419). -/

/-- `ProformaInvoice.STATUS_CHOICES` (models.py 311-321). -/
inductive PIStatus where
  | draft
  | pending_approval
  | approved
  | rework
deriving DecidableEq, Repr

/-- The Proforma Invoice header fields the workflow reads and writes. -/
structure ProformaInvoice where
  status : PIStatus
  submitted_at : Option Nat
  approved_at : Option Nat
  reworked_at : Option Nat
  last_checker : Option Nat
  is_active : Bool
  deactivated_at : Option Nat
  total_amount_usd : Rat
  line_items : List LineItem
deriving DecidableEq, Repr

/-- `ProformaInvoice.submit` (models.py 402-404). -/
def ProformaInvoice.submit (now : Nat) (inv : ProformaInvoice) : ProformaInvoice :=
  { inv with status := .pending_approval, submitted_at := some now }

/-- `ProformaInvoice.approve` (models.py 406-410). -/
def ProformaInvoice.approve (now : Nat) (checker_user : Option Nat) (inv : ProformaInvoice) :
    ProformaInvoice :=
  { inv with
    status := .approved,
    approved_at := some now,
    last_checker := (match checker_user with
      | some c => some c
      | none => inv.last_checker) }

/-- `ProformaInvoice.reject_to_rework` (models.py 412-420). -/
def ProformaInvoice.reject_to_rework (now : Nat) (checker_user : Option Nat)
    (inv : ProformaInvoice) : ProformaInvoice :=
  { inv with
    status := .rework,
    reworked_at := some now,
    last_checker := (match checker_user with
      | some c => some c
      | none => inv.last_checker) }

/-- `ProformaInvoice.recalc_total` (models.py 395-399). -/
def ProformaInvoice.recalc_total (inv : ProformaInvoice) : ProformaInvoice :=
  { inv with total_amount_usd := activeTotal inv.line_items }

/-- `ProformaInvoiceViewSet.submit` (api.py 260-273). -/
def piSubmitAction (u : User) (now : Nat) (inv : ProformaInvoice) :
    Except ApiResponseError (ProformaInvoice × List AuditRow) :=
  if is_maker u || is_admin u then
    if inv.status = .draft ∨ inv.status = .rework then
      .ok (inv.submit now, [{ action := "SUBMITTED", actor := u.id, timestamp := now, notes := "" }])
    else .error (.badRequest "Only Draft/Rework can be submitted.")
  else .error (.forbidden "Not allowed to submit.")

/-- `ProformaInvoiceViewSet.approve` (api.py 275-288). -/
def piApproveAction (u : User) (now : Nat) (inv : ProformaInvoice) :
    Except ApiResponseError (ProformaInvoice × List AuditRow) :=
  if is_checker u || is_admin u then
    if inv.status = .pending_approval ∨ inv.status = .rework then
      .ok (inv.approve now (some u.id),
        [{ action := "APPROVED", actor := u.id, timestamp := now, notes := "" }])
    else .error (.badRequest "Only Pending Approval/Rework can be approved.")
  else .error (.forbidden "Not allowed to approve.")

/-- `ProformaInvoiceViewSet.reject` (api.py 290-307): optional notes,
destination status REWORK, audit action "REJECTED". -/
def piRejectAction (u : User) (now : Nat) (notes : String) (inv : ProformaInvoice) :
    Except ApiResponseError (ProformaInvoice × List AuditRow) :=
  if is_checker u || is_admin u then
    if inv.status = .pending_approval then
      .ok (inv.reject_to_rework now (some u.id),
        [{ action := "REJECTED", actor := u.id, timestamp := now, notes := notes }])
    else .error (.badRequest "Only Pending Approval can be rejected.")
  else .error (.forbidden "Not allowed to reject.")

/-- `ProformaInvoiceViewSet.deactivate` (api.py 246-258). -/
def piDeactivateAction (u : User) (now : Nat) (inv : ProformaInvoice) :
    Except ApiResponseError (ProformaInvoice × List AuditRow) :=
  if is_admin u ∨ (is_maker u ∧ inv.status = .draft) then
    .ok ({ inv with is_active := false, deactivated_at := some now },
      [{ action := "DEACTIVATED", actor := u.id, timestamp := now, notes := "" }])
  else .error (.forbidden "Not allowed to deactivate.")

/-- `ProformaInvoiceViewSet._can_edit` (api.py 343-350). -/
def pi_can_edit (u : User) (inv : ProformaInvoice) : Bool :=
  if is_admin u then true
  else if is_maker u ∧ (inv.status = .draft ∨ inv.status = .rework) then true
  else if is_checker u ∧ inv.status = .rework then true
  else false

/-- Saving a line item against its parent Proforma Invoice: the model
save hook computes the amount, stores the row, then synchronously calls
`invoice.recalc_total(commit=True)` (models.py 447-461). -/
def piLineItemSave (inv : ProformaInvoice) (it : LineItem) : ProformaInvoice :=
  ({ inv with line_items := saveItemList inv.line_items (savedLineItem it) }).recalc_total

/-- `ProformaInvoiceViewSet.line_items` POST branch (api.py 352-377):
create a line item, requires edit permission. -/
def piAddLineItemAction (u : User) (now : Nat) (it : LineItem) (inv : ProformaInvoice) :
    Except ApiResponseError (ProformaInvoice × List AuditRow) :=
  if pi_can_edit u inv then
    .ok (piLineItemSave inv it,
      [{ action := "EDITED", actor := u.id, timestamp := now, notes := "Line item added" }])
  else .error (.forbidden "Not allowed to add line items.")

/-- `ProformaInvoiceViewSet.update_line_item` (api.py 379-399). -/
def piUpdateLineItemAction (u : User) (now : Nat) (it : LineItem) (inv : ProformaInvoice) :
    Except ApiResponseError (ProformaInvoice × List AuditRow) :=
  if pi_can_edit u inv then
    if (inv.line_items.filter (·.is_active)).any (fun j => decide (j.id = it.id)) then
      .ok (piLineItemSave inv it,
        [{ action := "EDITED", actor := u.id, timestamp := now, notes := "Line item updated" }])
    else .error (.notFound "Item not found.")
  else .error (.forbidden "Not allowed to edit line items.")

/-- `ProformaInvoiceViewSet.deactivate_line_item` (api.py 401-419): the
deactivated row keeps its stored amount (the save uses `update_fields`),
and the overridden line-item save still triggers the parent's
`recalc_total`, which now excludes the row. -/
def piDeactivateLineItemAction (u : User) (now : Nat) (itemId : Nat) (inv : ProformaInvoice) :
    Except ApiResponseError (ProformaInvoice × List AuditRow) :=
  if pi_can_edit u inv then
    match inv.line_items.find? (fun j => decide (j.id = itemId) && j.is_active) with
    | none => .error (.notFound "Item not found.")
    | some it =>
        let it2 := { it with is_active := false, deactivated_at := some now }
        let inv2 := ({ inv with line_items := saveItemList inv.line_items it2 }).recalc_total
        .ok (inv2,
          [{ action := "EDITED", actor := u.id, timestamp := now, notes := "Line item deleted" }])
  else .error (.forbidden "Not allowed to delete line items.")

/-!  Commercial Invoice (models.py 676-829, api.py 426-706). -/

/-- `CommercialInvoice.STATUS_CHOICES` (models.py 686-698). -/
inductive CIStatus where
  | draft
  | pending_approval
  | approved
  | rejected
  | disabled
deriving DecidableEq, Repr

/-- The Commercial Invoice header fields the workflow reads and writes.
`amount` is `Option` because `recalc_total` tests `self.amount is None`. -/
structure CommercialInvoice where
  status : CIStatus
  submitted_at : Option Nat
  approved_at : Option Nat
  rejected_at : Option Nat
  disabled_at : Option Nat
  last_checker : Option Nat
  is_active : Bool
  deactivated_at : Option Nat
  amount : Option Rat
  total_amount_usd : Rat
  line_items : List LineItem
deriving DecidableEq, Repr

/-- `CommercialInvoice.recalc_total` (models.py 756-763): always store
the active-item sum in `total_amount_usd`; mirror it into `amount` only
when `amount` is None or zero. -/
def CommercialInvoice.recalc_total (ci : CommercialInvoice) : CommercialInvoice :=
  let total_usd := activeTotal ci.line_items
  { ci with
    total_amount_usd := total_usd,
    amount := if ci.amount = none ∨ ci.amount = some 0 then some total_usd else ci.amount }

/-- `CommercialInvoice.submit` (models.py 766-769). -/
def CommercialInvoice.submit (now : Nat) (ci : CommercialInvoice) : CommercialInvoice :=
  if ci.status = .draft ∨ ci.status = .rejected then
    { ci with status := .pending_approval, submitted_at := some now }
  else ci

/-- `CommercialInvoice.approve` (models.py 771-776). -/
def CommercialInvoice.approve (now : Nat) (checker_user : Option Nat) (ci : CommercialInvoice) :
    CommercialInvoice :=
  if ci.status = .pending_approval ∨ ci.status = .rejected then
    { ci with
      status := .approved,
      approved_at := some now,
      last_checker := (match checker_user with
        | some c => some c
        | none => ci.last_checker) }
  else ci

/-- `CommercialInvoice.reject` (models.py 778-783). -/
def CommercialInvoice.reject (now : Nat) (checker_user : Option Nat) (ci : CommercialInvoice) :
    CommercialInvoice :=
  if ci.status = .pending_approval then
    { ci with
      status := .rejected,
      rejected_at := some now,
      last_checker := (match checker_user with
        | some c => some c
        | none => ci.last_checker) }
  else ci

/-- `CommercialInvoice.disable` (models.py 785-791): keeps
`is_active = True` for visibility. -/
def CommercialInvoice.disable (now : Nat) (ci : CommercialInvoice) : CommercialInvoice :=
  if ci.status = .approved then
    { ci with status := .disabled, disabled_at := some now }
  else ci

/-- `CommercialInvoiceViewSet.update` (api.py 466-494).  The payload is
an abstract header edit `upd`; Approved/Disabled are rejected for every
actor before any role check. -/
def ciUpdateAction (u : User) (now : Nat) (upd : CommercialInvoice → CommercialInvoice)
    (ci : CommercialInvoice) : Except ApiResponseError (CommercialInvoice × List AuditRow) :=
  if ci.status = .approved ∨ ci.status = .disabled then
    .error (.forbidden "Approved/Disabled invoices are read-only.")
  else if is_admin u then
    .ok (upd ci, [{ action := "EDITED", actor := u.id, timestamp := now, notes := "" }])
  else if is_maker u ∧ (ci.status = .draft ∨ ci.status = .rejected) then
    .ok (upd ci, [{ action := "EDITED", actor := u.id, timestamp := now, notes := "" }])
  else if is_checker u ∧ ci.status = .rejected then
    .ok (upd ci, [{ action := "EDITED", actor := u.id, timestamp := now, notes := "" }])
  else .error (.forbidden "Not allowed to edit in current status.")

/-- `CommercialInvoiceViewSet.deactivate` (api.py 499-513). -/
def ciDeactivateAction (u : User) (now : Nat) (ci : CommercialInvoice) :
    Except ApiResponseError (CommercialInvoice × List AuditRow) :=
  if ci.status = .disabled then
    .error (.badRequest "Disabled invoices cannot be deactivated.")
  else if is_checker u || is_admin u then
    .ok ({ ci with is_active := false, deactivated_at := some now },
      [{ action := "DISABLED", actor := u.id, timestamp := now, notes := "Record deactivated" }])
  else .error (.forbidden "Not allowed to deactivate.")

/-- `CommercialInvoiceViewSet.submit` (api.py 515-528). -/
def ciSubmitAction (u : User) (now : Nat) (ci : CommercialInvoice) :
    Except ApiResponseError (CommercialInvoice × List AuditRow) :=
  if is_maker u || is_admin u then
    if ci.status = .draft ∨ ci.status = .rejected then
      .ok (ci.submit now, [{ action := "SUBMITTED", actor := u.id, timestamp := now, notes := "" }])
    else .error (.badRequest "Only Draft/Rejected can be submitted.")
  else .error (.forbidden "Not allowed to submit.")

/-- `CommercialInvoiceViewSet.approve` (api.py 530-544). -/
def ciApproveAction (u : User) (now : Nat) (ci : CommercialInvoice) :
    Except ApiResponseError (CommercialInvoice × List AuditRow) :=
  if is_checker u || is_admin u then
    if ci.status = .pending_approval ∨ ci.status = .rejected then
      .ok (ci.approve now (some u.id),
        [{ action := "APPROVED", actor := u.id, timestamp := now, notes := "" }])
    else .error (.badRequest "Only Pending Approval/Rejected can be approved.")
  else .error (.forbidden "Not allowed to approve.")

/-- `CommercialInvoiceViewSet.reject` (api.py 546-564): the status check
precedes the mandatory-notes check; notes are stripped. -/
def ciRejectAction (u : User) (now : Nat) (notes : String) (ci : CommercialInvoice) :
    Except ApiResponseError (CommercialInvoice × List AuditRow) :=
  if is_checker u || is_admin u then
    if ci.status = .pending_approval then
      if pyStrip notes = "" then
        .error (.badRequest "Rejection requires comments for rework.")
      else
        .ok (ci.reject now (some u.id),
          [{ action := "REJECTED", actor := u.id, timestamp := now, notes := pyStrip notes }])
    else .error (.badRequest "Only Pending Approval can be rejected.")
  else .error (.forbidden "Not allowed to reject.")

/-- `CommercialInvoiceViewSet.disable` (api.py 566-580). -/
def ciDisableAction (u : User) (now : Nat) (ci : CommercialInvoice) :
    Except ApiResponseError (CommercialInvoice × List AuditRow) :=
  if is_checker u || is_admin u then
    if ci.status = .approved then
      .ok (ci.disable now, [{ action := "DISABLED", actor := u.id, timestamp := now, notes := "" }])
    else .error (.badRequest "Only Approved invoices can be disabled.")
  else .error (.forbidden "Not allowed to disable.")

/-- `CommercialInvoiceViewSet._can_edit` (api.py 641-648): admin edits in
every status, including DISABLED. -/
def ci_can_edit (u : User) (ci : CommercialInvoice) : Bool :=
  if is_admin u then true
  else if is_maker u ∧ (ci.status = .draft ∨ ci.status = .rejected) then true
  else if is_checker u ∧ ci.status = .rejected then true
  else false

/-- Saving a line item against its parent Commercial Invoice (models.py
816-829): compute amount, store the row, synchronously recalc the total. -/
def ciLineItemSave (ci : CommercialInvoice) (it : LineItem) : CommercialInvoice :=
  ({ ci with line_items := saveItemList ci.line_items (savedLineItem it) }).recalc_total

/-- `CommercialInvoiceViewSet.line_items` POST branch (api.py 650-670). -/
def ciAddLineItemAction (u : User) (now : Nat) (it : LineItem) (ci : CommercialInvoice) :
    Except ApiResponseError (CommercialInvoice × List AuditRow) :=
  if ci_can_edit u ci then
    .ok (ciLineItemSave ci it,
      [{ action := "EDITED", actor := u.id, timestamp := now, notes := "Line item added" }])
  else .error (.forbidden "Not allowed to add line items.")

/-- `CommercialInvoiceViewSet.update_line_item` (api.py 672-689). -/
def ciUpdateLineItemAction (u : User) (now : Nat) (it : LineItem) (ci : CommercialInvoice) :
    Except ApiResponseError (CommercialInvoice × List AuditRow) :=
  if ci_can_edit u ci then
    if (ci.line_items.filter (·.is_active)).any (fun j => decide (j.id = it.id)) then
      .ok (ciLineItemSave ci it,
        [{ action := "EDITED", actor := u.id, timestamp := now, notes := "Line item updated" }])
    else .error (.notFound "Item not found.")
  else .error (.forbidden "Not allowed to edit line items.")

/-- `CommercialInvoiceViewSet.deactivate_line_item` (api.py 691-706). -/
def ciDeactivateLineItemAction (u : User) (now : Nat) (itemId : Nat) (ci : CommercialInvoice) :
    Except ApiResponseError (CommercialInvoice × List AuditRow) :=
  if ci_can_edit u ci then
    match ci.line_items.find? (fun j => decide (j.id = itemId) && j.is_active) with
    | none => .error (.notFound "Item not found.")
    | some it =>
        let it2 := { it with is_active := false, deactivated_at := some now }
        let ci2 := ({ ci with line_items := saveItemList ci.line_items it2 }).recalc_total
        .ok (ci2,
          [{ action := "EDITED", actor := u.id, timestamp := now, notes := "Line item deleted" }])
  else .error (.forbidden "Not allowed to delete line items.")

/-!  Packing List (models.py 509-669, api.py 712-1038). -/

/-- `PackingList.STATUS_CHOICES` (models.py 518-528).  Note: the model
defines exactly these four statuses; there is no
`STATUS_PERMANENTLY_REJECTED` constant and no `permanently_rejected_at`
field on the model. -/
inductive PLStatus where
  | draft
  | pending_approval
  | approved
  | rework
deriving DecidableEq, Repr

/-- The Packing List header fields the workflow reads and writes. -/
structure PackingList where
  status : PLStatus
  submitted_at : Option Nat
  approved_at : Option Nat
  reworked_at : Option Nat
  last_checker : Option Nat
deriving DecidableEq, Repr

/-- `PackingListViewSet.submit` (api.py 950-962): no audit row is written
for Packing Lists. -/
def plSubmitAction (u : User) (now : Nat) (pl : PackingList) :
    Except ApiResponseError (PackingList × List AuditRow) :=
  if is_maker u || is_admin u then
    if pl.status = .draft ∨ pl.status = .rework then
      .ok ({ pl with status := .pending_approval, submitted_at := some now }, [])
    else .error (.badRequest "Only Draft/Rework can be submitted.")
  else .error (.forbidden "Not allowed to submit.")

/-- `PackingListViewSet.approve` (api.py 964-977): no audit row. -/
def plApproveAction (u : User) (now : Nat) (pl : PackingList) :
    Except ApiResponseError (PackingList × List AuditRow) :=
  if is_checker u || is_admin u then
    if pl.status = .pending_approval then
      .ok ({ pl with status := .approved, approved_at := some now, last_checker := some u.id }, [])
    else .error (.badRequest "Only Pending Approval can be approved.")
  else .error (.forbidden "Not allowed to approve.")

/-- `PackingListViewSet.reject` (api.py 1003-1024): the mandatory-notes
check runs BEFORE the status check; no audit row ("Audit trail for
packing list not implemented yet"). -/
def plRejectAction (u : User) (now : Nat) (notes : String) (pl : PackingList) :
    Except ApiResponseError (PackingList × List AuditRow) :=
  if is_checker u || is_admin u then
    if notes = "" then
      .error (.badRequest "Rejection requires comments for rework.")
    else if pl.status = .pending_approval then
      .ok ({ pl with status := .rework, reworked_at := some now, last_checker := some u.id }, [])
    else .error (.badRequest "Only Pending Approval can be rejected.")
  else .error (.forbidden "Not allowed to reject.")

/-- `PackingListViewSet.permanently_reject` (api.py 1026-1038).  After
the role check the handler evaluates
`PackingList.STATUS_PERMANENTLY_REJECTED`; the model class defines no
such attribute (models.py 518-528), so Python raises `AttributeError`
before any field of the packing list is assigned: the request fails with
an uncaught-exception 500 response and the row is untouched. -/
def plPermanentlyRejectAction (u : User) (_pl : PackingList) :
    Except ApiResponseError (PackingList × List AuditRow) :=
  if is_checker u || is_admin u then
    .error (.serverError
      "AttributeError: type object PackingList has no attribute STATUS_PERMANENTLY_REJECTED")
  else .error (.forbidden "Not allowed to permanently reject.")

/-!  Sequential numbering (`ProformaInvoice.generate_number`, models.py
384-393; the save hook, models.py 422-426). -/

/-- Python `f"{seq:04d}"`: decimal digits left-padded with zeros to at
least four characters. -/
def pad4 (n : Nat) : String :=
  let s := Nat.repr n
  if s.length < 4 then String.mk (List.replicate (4 - s.length) '0') ++ s else s

/-- `ProformaInvoice.generate_number` (models.py 384-393): prefix
`PI-<year>-`, sequence = count of existing numbers starting with the
prefix, plus one, zero-padded to four digits.  `existing` is the list of
`number` values of all ProformaInvoice rows at save time. -/
def pi_generate_number (year : Nat) (existing : List String) : String :=
  let pre := "PI-" ++ Nat.repr year ++ "-"
  let seq := (existing.filter (fun num => pyStartsWith num pre)).length + 1
  pre ++ pad4 seq

/-- `ProformaInvoice.save` (models.py 422-426): the number is generated
only on first save (`not self.pk`) of a row with no number yet. -/
def pi_number_on_first_save (number : String) (year : Nat) (existing : List String) : String :=
  if number = "" then pi_generate_number year existing else number

/-!  Packing-List aggregation (api.py 745-813 `aggregate_from_packing_list`
and the identical grouping block of `create_from_packing_list`,
api.py 845-864). -/

/-- A UOM master row: primary key and display name. -/
structure UOMRef where
  id : Nat
  uom : String
deriving DecidableEq, Repr

/-- A `PackingListContainerItem` row (models.py 657-665). -/
structure PackingListContainerItem where
  is_active : Bool
  hsn_code : Option String
  item_code : Option String
  packages_number_and_kind : Option String
  description_of_goods : Option String
  quantity : Option Rat
  uom : Option UOMRef
deriving DecidableEq, Repr

/-- A `PackingListContainer` row with its items (models.py 632-654). -/
structure PackingListContainer where
  id : Nat
  is_active : Bool
  items : List PackingListContainerItem
deriving DecidableEq, Repr

/-- The grouping key `(it.item_code or "", it.uom_id or 0)`. -/
abbrev AggKey := String × Nat

/-- The grouping key of an item (api.py 763). -/
def itemKey (it : PackingListContainerItem) : AggKey :=
  (pyOrStr it.item_code "", (it.uom.map (·.id)).getD 0)

/-- One aggregation group (the dict value built at api.py 766-775).
`container_ids` models the Python `set` as a duplicate-free list in
first-insertion order. -/
structure AggGroup where
  hs_code : String
  item_code : String
  description : String
  packages_number_and_kind : String
  quantity : Rat
  unit_id : Option Nat
  unit : String
  container_ids : List Nat
deriving DecidableEq, Repr

/-- The quantity contribution of an item: `it.quantity or 0`. -/
def qtyOf (it : PackingListContainerItem) : Rat := pyOrRat it.quantity 0

/-- The group created when a key is first seen (api.py 766-775). -/
def initGroup (cid : Nat) (it : PackingListContainerItem) : AggGroup :=
  {
    hs_code := pyOrStr it.hsn_code "",
    item_code := pyOrStr it.item_code "",
    description := pyOrStr it.description_of_goods "",
    packages_number_and_kind := pyOrStr it.packages_number_and_kind "",
    quantity := qtyOf it,
    unit_id := it.uom.map (·.id),
    unit := (match it.uom with
      | some uref => if uref.id = 0 then "" else uref.uom
      | none => ""),
    container_ids := [cid] }

/-- Adding a container id to the group's `set` of contributing ids. -/
def insertId (cid : Nat) (ids : List Nat) : List Nat :=
  if cid ∈ ids then ids else ids ++ [cid]

/-- Updating an existing group with a further item (api.py 776-778):
add the quantity, record the container id. -/
def bumpGroup (cid : Nat) (it : PackingListContainerItem) (g : AggGroup) : AggGroup :=
  { g with
    quantity := g.quantity + qtyOf it,
    container_ids := insertId cid g.container_ids }

/-- One step of the grouping loop on the insertion-ordered dict `groups`,
modelled as an association list: update the entry for the item's key in
place if present, else append a fresh group at the end (Python dict
insertion-order semantics). -/
def addItem (cid : Nat) (it : PackingListContainerItem) :
    List (AggKey × AggGroup) → List (AggKey × AggGroup)
  | [] => [(itemKey it, initGroup cid it)]
  | kg :: rest =>
      if kg.1 = itemKey it then (kg.1, bumpGroup cid it kg.2) :: rest
      else kg :: addItem cid it rest

/-- Dict lookup `groups.get(key)` on the association list. -/
def lookupGroup : List (AggKey × AggGroup) → AggKey → Option AggGroup
  | [], _ => none
  | kg :: rest, k => if kg.1 = k then some kg.2 else lookupGroup rest k

/-- The nested grouping loops of api.py 759-778: all active containers,
each container's active items. -/
def aggregateGroups (containers : List PackingListContainer) : List (AggKey × AggGroup) :=
  (containers.filter (·.is_active)).foldl
    (fun gs c => (c.items.filter (·.is_active)).foldl (fun gs2 it => addItem c.id it gs2) gs) []

/-- The literal marker text appended for multi-container groups. -/
def everyContainerMarker : String := "In every container"

/-- The description emitted for a group (api.py 784-788): append the
marker when more than one container contributed, guarded against a
duplicate appension, with Python's `f"{desc} In every container".strip()`. -/
def markedDescription (g : AggGroup) : String :=
  if g.container_ids.length > 1 then
    if pyContains g.description everyContainerMarker then g.description
    else pyStrip (g.description ++ " " ++ everyContainerMarker)
  else g.description

/-- One proposed Commercial Invoice line item (api.py 789-800). -/
structure AggLineItem where
  hs_code : String
  item_code : String
  description : String
  packages_number_and_kind : String
  quantity : Rat
  unit : String
  unit_id : Option Nat
  rate_label : String
deriving DecidableEq, Repr

/-- The line item emitted for a group (api.py 783-800). -/
def lineItemOfGroup (g : AggGroup) : AggLineItem :=
  {
    hs_code := g.hs_code,
    item_code := g.item_code,
    description := markedDescription g,
    packages_number_and_kind := g.packages_number_and_kind,
    quantity := g.quantity,
    unit := g.unit,
    unit_id := g.unit_id,
    rate_label := if g.unit = "" then "Rate per UOM" else "Rate per " ++ g.unit }

/-- `PackingListViewSet.aggregate_from_packing_list` (api.py 745-813),
after the packing list has been fetched: requires APPROVED status, groups
the active items of the active containers, fails when no group results,
else emits one proposed line item per group in insertion order. -/
def aggregate_from_packing_list (plStatus : PLStatus)
    (containers : List PackingListContainer) :
    Except ApiResponseError (List AggLineItem) :=
  if plStatus = .approved then
    let groups := aggregateGroups containers
    if groups = [] then
      .error (.badRequest "No items found to aggregate for this Packing List.")
    else .ok (groups.map (fun kg => lineItemOfGroup kg.2))
  else .error (.badRequest "Packing List must be Approved.")


/-!  Auxiliary definitions used to state and prove the characterization
of the aggregation fold, and concrete fixtures for witnesses. -/

/-- The flattened iteration order of the nested grouping loops: one
(container id, item) pair per active item of each active container. -/
def contItemPairs (containers : List PackingListContainer) :
    List (Nat × PackingListContainerItem) :=
  (containers.filter (·.is_active)).flatMap
    (fun c => (c.items.filter (·.is_active)).map (fun it => (c.id, it)))

/-- Folding the grouping step over a list of (container id, item) pairs,
starting from an arbitrary group list. -/
def runAgg (gs : List (AggKey × AggGroup)) (ps : List (Nat × PackingListContainerItem)) :
    List (AggKey × AggGroup) :=
  ps.foldl (fun acc p => addItem p.1 p.2 acc) gs

/-- The pairs contributing to key `k`. -/
def contribPairs (ps : List (Nat × PackingListContainerItem)) (k : AggKey) :
    List (Nat × PackingListContainerItem) :=
  ps.filter (fun p => decide (itemKey p.2 = k))

/-- The total quantity contributed to key `k`. -/
def contribQty (ps : List (Nat × PackingListContainerItem)) (k : AggKey) : Rat :=
  ((contribPairs ps k).map (fun p => qtyOf p.2)).sum

/-- The container ids contributing to key `k`, in iteration order, with
multiplicity. -/
def contribIds (ps : List (Nat × PackingListContainerItem)) (k : AggKey) : List Nat :=
  (contribPairs ps k).map (·.1)

/-- Folding set insertion of container ids over a list. -/
def extendIds (ids : List Nat) : List Nat → List Nat
  | [] => ids
  | c :: l => extendIds (insertId c ids) l

/-- First-occurrence deduplication of a list of container ids. -/
def dedupFirst (l : List Nat) : List Nat := extendIds [] l

/-- A group after absorbing every contribution to key `k` in `ps`. -/
def extendGroup (g : AggGroup) (ps : List (Nat × PackingListContainerItem)) (k : AggKey) :
    AggGroup :=
  { g with
    quantity := g.quantity + contribQty ps k,
    container_ids := extendIds g.container_ids (contribIds ps k) }

/-- Direct description of the group the fold produces for key `k`: the
group seeded by the first contributing pair and extended by the rest. -/
def aggSpec : List (Nat × PackingListContainerItem) → AggKey → Option AggGroup
  | [], _ => none
  | p :: ps, k =>
      if itemKey p.2 = k then some (extendGroup (initGroup p.1 p.2) ps k)
      else aggSpec ps k

/-!  Concrete fixtures. -/

/-- A Maker-group user. -/
def userMaker : User :=
  { id := 1, is_superuser := false, in_maker_group := true, in_checker_group := false }

/-- A Checker-group user. -/
def userChecker : User :=
  { id := 2, is_superuser := false, in_maker_group := false, in_checker_group := true }

/-- A superuser. -/
def userAdmin : User :=
  { id := 3, is_superuser := true, in_maker_group := false, in_checker_group := false }

/-- A Proforma Invoice in DRAFT with no line items. -/
def piDraft : ProformaInvoice :=
  { status := .draft, submitted_at := none, approved_at := none, reworked_at := none,
    last_checker := none, is_active := true, deactivated_at := none,
    total_amount_usd := 0, line_items := [] }

/-- A Proforma Invoice in PENDING_APPROVAL. -/
def piPending : ProformaInvoice := { piDraft with status := .pending_approval }

/-- A Proforma Invoice in APPROVED. -/
def piApproved : ProformaInvoice := { piDraft with status := .approved }

/-- A Commercial Invoice in DRAFT with no line items and a zero amount. -/
def ciDraft : CommercialInvoice :=
  { status := .draft, submitted_at := none, approved_at := none, rejected_at := none,
    disabled_at := none, last_checker := none, is_active := true, deactivated_at := none,
    amount := some 0, total_amount_usd := 0, line_items := [] }

/-- A Commercial Invoice in PENDING_APPROVAL. -/
def ciPending : CommercialInvoice := { ciDraft with status := .pending_approval }

/-- A Commercial Invoice in APPROVED. -/
def ciApproved : CommercialInvoice := { ciDraft with status := .approved }

/-- A DISABLED Commercial Invoice with a nonzero amount and no line items. -/
def ciDisabledFx : CommercialInvoice :=
  { ciDraft with status := .disabled, disabled_at := some 4, amount := some 1 }

/-- A Packing List in DRAFT. -/
def plDraft : PackingList :=
  { status := .draft, submitted_at := none, approved_at := none, reworked_at := none,
    last_checker := none }

/-- A Packing List in PENDING_APPROVAL. -/
def plPending : PackingList := { plDraft with status := .pending_approval }

/-- A fresh line item with quantity 3 and unit price 2. -/
def itemQ3P2 : LineItem :=
  { id := 9, is_active := true, deactivated_at := none,
    quantity := some 3, unit_price_usd := some 2, amount_usd := 0 }

/-- An already-stored active line item with amount 2 and no in-memory
quantity or price. -/
def itemStored2 : LineItem :=
  { id := 1, is_active := true, deactivated_at := none,
    quantity := none, unit_price_usd := none, amount_usd := 2 }

/-- An already-stored active line item with amount 7. -/
def itemStored7 : LineItem :=
  { id := 2, is_active := true, deactivated_at := none,
    quantity := none, unit_price_usd := none, amount_usd := 7 }

/-- A Proforma Invoice holding the single active stored item `itemStored2`. -/
def piWithItem : ProformaInvoice := { piDraft with line_items := [itemStored2], total_amount_usd := 2 }

/-- A Commercial Invoice whose amount field is 5 while its single active
line item carries amount 7. -/
def ciAmt5 : CommercialInvoice :=
  { ciDraft with amount := some 5, line_items := [itemStored7] }

/-- Container item: code ITM-1, UOM KG (id 7), quantity 100. -/
def exItem100 : PackingListContainerItem :=
  { is_active := true, hsn_code := some "7304", item_code := some "ITM-1",
    packages_number_and_kind := some "10 pallets",
    description_of_goods := some "Steel pipes", quantity := some 100,
    uom := some { id := 7, uom := "KG" } }

/-- Container item: code ITM-1, UOM KG (id 7), quantity 150. -/
def exItem150 : PackingListContainerItem := { exItem100 with quantity := some 150 }

/-- First container of the aggregation example. -/
def exCont1 : PackingListContainer := { id := 31, is_active := true, items := [exItem100] }

/-- Second container of the aggregation example. -/
def exCont2 : PackingListContainer := { id := 32, is_active := true, items := [exItem150] }

/-- The proposed line item the aggregation example must produce. -/
def exAggLine : AggLineItem :=
  { hs_code := "7304", item_code := "ITM-1",
    description := "Steel pipes In every container",
    packages_number_and_kind := "10 pallets", quantity := 250, unit := "KG",
    unit_id := some 7, rate_label := "Rate per KG" }

/-- A keyless item (no item code, no UOM) with hs code 1111. -/
def exKeyless1 : PackingListContainerItem :=
  { is_active := true, hsn_code := some "1111", item_code := none,
    packages_number_and_kind := some "2 boxes",
    description_of_goods := some "first item", quantity := some 5, uom := none }

/-- A second keyless item with entirely different descriptive fields. -/
def exKeyless2 : PackingListContainerItem :=
  { is_active := true, hsn_code := some "2222", item_code := some "",
    packages_number_and_kind := some "9 bags",
    description_of_goods := some "second item", quantity := none, uom := none }

/-- Container holding the first keyless item. -/
def exKCont1 : PackingListContainer := { id := 41, is_active := true, items := [exKeyless1] }

/-- Container holding the second keyless item. -/
def exKCont2 : PackingListContainer := { id := 42, is_active := true, items := [exKeyless2] }

/-- Container with a single keyless item, used as a one-item witness. -/
def exKSolo : PackingListContainer := { id := 51, is_active := true, items := [exKeyless1] }

/-- The invalid-transition error messages of the workflow actions: the
details returned when an action's source-state precondition fails. -/
def invalidTransitionDetails : List String :=
  ["Only Draft/Rework can be submitted.",
   "Only Pending Approval/Rework can be approved.",
   "Only Pending Approval can be rejected.",
   "Only Pending Approval can be approved.",
   "Only Draft/Rejected can be submitted.",
   "Only Pending Approval/Rejected can be approved.",
   "Only Approved invoices can be disabled."]

/-- Whether an error response is one of the invalid-transition errors. -/
def isInvalidTransitionDetail (e : ApiResponseError) : Bool :=
  match e with
  | .badRequest d => invalidTransitionDetails.contains d
  | _ => false

/-- A Packing List in APPROVED. -/
def plApproved : PackingList := { plDraft with status := .approved }

/-- A Commercial Invoice holding the single active stored item `itemStored2`. -/
def ciWithItem : CommercialInvoice :=
  { ciDraft with amount := some 1, line_items := [itemStored2], total_amount_usd := 2 }


/-- The group the one-keyless-item witness packing list produces. -/
def exSoloGroup : AggGroup :=
  { hs_code := "1111", item_code := "", description := "first item",
    packages_number_and_kind := "2 boxes", quantity := 5, unit_id := none,
    unit := "", container_ids := [51] }

/-- A group contributed by two containers, marker not yet present. -/
def exTwoIdsGroup : AggGroup :=
  { exSoloGroup with container_ids := [31, 32], description := "Steel pipes" }

/-- A two-container group whose description already holds the marker. -/
def exMarkedGroup : AggGroup :=
  { exTwoIdsGroup with description := "Already In every container here" }

/-- The single merged group of the two-keyless-items example. -/
def exMergedGroup : AggGroup :=
  { hs_code := "1111", item_code := "", description := "first item",
    packages_number_and_kind := "2 boxes", quantity := 5, unit_id := none,
    unit := "", container_ids := [41, 42] }


/-!  Helper lemmas: characterization of the aggregation fold. -/

/-- Looking up a key after one grouping step. -/
theorem lookup_addItem (gs : List (AggKey × AggGroup)) (cid : Nat)
    (it : PackingListContainerItem) (k : AggKey) :
    lookupGroup (addItem cid it gs) k =
      if itemKey it = k then
        (match lookupGroup gs k with
         | none => some (initGroup cid it)
         | some g => some (bumpGroup cid it g))
      else lookupGroup gs k := by
  induction gs with
  | nil =>
      by_cases h : itemKey it = k <;> simp [addItem, lookupGroup, h]
  | cons kg rest ih =>
      by_cases h1 : kg.1 = itemKey it
      · by_cases h2 : itemKey it = k
        · subst h2
          simp [addItem, lookupGroup, h1]
        · have h3 : kg.1 ≠ k := by rw [h1]; exact h2
          simp [addItem, lookupGroup, h1, h2, h3]
      · by_cases h2 : kg.1 = k
        · have h3 : itemKey it ≠ k := fun hh => h1 (h2.trans hh.symm)
          have h4 : ¬ k = itemKey it := fun hh => h1 (h2.trans hh)
          simp [addItem, lookupGroup, h1, h2, h3, h4]
        · simp [addItem, lookupGroup, h1, h2, ih]

/-- Extending a group by an empty pair list changes nothing. -/
theorem extendGroup_nil (g : AggGroup) (k : AggKey) : extendGroup g [] k = g := by
  cases g
  simp [extendGroup, contribQty, contribIds, contribPairs, extendIds]

/-- Bumping then extending equals extending by the consed list, for a
contributing head pair. -/
theorem extendGroup_cons_pos (g : AggGroup) (cid : Nat) (it : PackingListContainerItem)
    (ps : List (Nat × PackingListContainerItem)) (k : AggKey) (h : itemKey it = k) :
    extendGroup (bumpGroup cid it g) ps k = extendGroup g ((cid, it) :: ps) k := by
  cases g
  simp [extendGroup, bumpGroup, contribQty, contribIds, contribPairs, extendIds,
    List.filter_cons, h, add_assoc]

/-- A non-contributing head pair does not change the extension. -/
theorem extendGroup_cons_neg (g : AggGroup) (cid : Nat) (it : PackingListContainerItem)
    (ps : List (Nat × PackingListContainerItem)) (k : AggKey) (h : ¬ itemKey it = k) :
    extendGroup g ((cid, it) :: ps) k = extendGroup g ps k := by
  simp [extendGroup, contribQty, contribIds, contribPairs, List.filter_cons, h]

/-- Characterization of the grouping fold from an arbitrary start. -/
theorem lookup_runAgg (ps : List (Nat × PackingListContainerItem))
    (gs : List (AggKey × AggGroup)) (k : AggKey) :
    lookupGroup (runAgg gs ps) k =
      (match lookupGroup gs k with
       | some g => some (extendGroup g ps k)
       | none => aggSpec ps k) := by
  induction ps generalizing gs with
  | nil =>
      cases h : lookupGroup gs k <;> simp [runAgg, h, aggSpec, extendGroup_nil]
  | cons p ps ih =>
      have hstep : runAgg gs (p :: ps) = runAgg (addItem p.1 p.2 gs) ps := rfl
      rw [hstep, ih, lookup_addItem]
      by_cases h : itemKey p.2 = k
      · cases hg : lookupGroup gs k with
        | none => simp [h, hg, aggSpec]
        | some g => simp [h, hg, aggSpec, extendGroup_cons_pos _ _ _ _ _ h]
      · cases hg : lookupGroup gs k with
        | none => simp [h, hg, aggSpec]
        | some g => simp [h, hg, extendGroup_cons_neg _ _ _ _ _ h]

/-- The nested loops equal the flattened fold, from any start. -/
theorem aggregateGroups_go (cs : List PackingListContainer) (gs : List (AggKey × AggGroup)) :
    (cs.filter (·.is_active)).foldl
      (fun acc c => (c.items.filter (·.is_active)).foldl (fun gs2 it => addItem c.id it gs2) acc) gs
    = runAgg gs (contItemPairs cs) := by
  induction cs generalizing gs with
  | nil => simp [contItemPairs, runAgg]
  | cons c cs ih =>
      by_cases h : c.is_active
      · have hpairs : contItemPairs (c :: cs) =
            ((c.items.filter (·.is_active)).map (fun it => (c.id, it))) ++ contItemPairs cs := by
          simp [contItemPairs, List.filter_cons, h]
        rw [hpairs]
        simp only [List.filter_cons, h, if_pos, List.foldl_cons]
        rw [ih]
        unfold runAgg
        rw [List.foldl_append, List.foldl_map]
      · have hpairs : contItemPairs (c :: cs) = contItemPairs cs := by
          simp [contItemPairs, List.filter_cons, h]
        rw [hpairs]
        simp only [List.filter_cons, h, if_neg, List.foldl_cons]
        exact ih gs

/-- The aggregation equals the flattened fold over all active pairs. -/
theorem aggregateGroups_eq (cs : List PackingListContainer) :
    aggregateGroups cs = runAgg [] (contItemPairs cs) :=
  aggregateGroups_go cs []

/-- The group stored for a key is exactly the direct description. -/
theorem lookup_aggregateGroups (cs : List PackingListContainer) (k : AggKey) :
    lookupGroup (aggregateGroups cs) k = aggSpec (contItemPairs cs) k := by
  rw [aggregateGroups_eq, lookup_runAgg]
  simp [lookupGroup]

/-- Explicit contents of the group for a key: metadata of the first
contributing pair, total contributed quantity, first-seen-deduplicated
contributing container ids. -/
theorem aggSpec_some (ps : List (Nat × PackingListContainerItem)) (k : AggKey) (g : AggGroup)
    (h : aggSpec ps k = some g) :
    ∃ p₀, ps.find? (fun p => decide (itemKey p.2 = k)) = some p₀
      ∧ g.hs_code = pyOrStr p₀.2.hsn_code ""
      ∧ g.item_code = pyOrStr p₀.2.item_code ""
      ∧ g.description = pyOrStr p₀.2.description_of_goods ""
      ∧ g.packages_number_and_kind = pyOrStr p₀.2.packages_number_and_kind ""
      ∧ g.unit_id = p₀.2.uom.map (·.id)
      ∧ g.quantity = contribQty ps k
      ∧ g.container_ids = dedupFirst (contribIds ps k) := by
  induction ps with
  | nil => simp [aggSpec] at h
  | cons p ps ih =>
      by_cases hk : itemKey p.2 = k
      · have hg : g = extendGroup (initGroup p.1 p.2) ps k := by
          rw [aggSpec, if_pos hk] at h
          exact (Option.some.inj h).symm
        subst hg
        refine ⟨p, ?_, rfl, rfl, rfl, rfl, rfl, ?_, ?_⟩
        · simp [List.find?_cons, hk]
        · simp [extendGroup, initGroup, contribQty, contribPairs, List.filter_cons, hk, qtyOf]
        · simp [extendGroup, initGroup, dedupFirst, extendIds, contribIds, contribPairs,
            List.filter_cons, hk, insertId]
      · rw [aggSpec, if_neg hk] at h
        obtain ⟨p₀, hfind, h1, h2, h3, h4, h5, h6, h7⟩ := ih h
        refine ⟨p₀, ?_, h1, h2, h3, h4, h5, ?_, ?_⟩
        · simp [List.find?_cons, hk, hfind]
        · rw [h6]
          simp [contribQty, contribPairs, List.filter_cons, hk]
        · rw [h7]
          simp [contribIds, contribPairs, List.filter_cons, hk]

/-- A key is absent from the fold result iff no active pair contributes. -/
theorem aggSpec_none (ps : List (Nat × PackingListContainerItem)) (k : AggKey) :
    aggSpec ps k = none ↔ ∀ p ∈ ps, itemKey p.2 ≠ k := by
  induction ps with
  | nil => simp [aggSpec]
  | cons p ps ih =>
      by_cases hk : itemKey p.2 = k <;> simp [aggSpec, hk, ih]

/-- Membership in a set insertion. -/
theorem mem_insertId {c x : Nat} {a : List Nat} : c ∈ insertId x a ↔ c ∈ a ∨ c = x := by
  by_cases h : x ∈ a
  · simp only [insertId, if_pos h]
    constructor
    · exact Or.inl
    · rintro (hc | rfl)
      · exact hc
      · exact h
  · simp [insertId, h]

/-- Set insertion preserves the no-duplicates invariant. -/
theorem nodup_insertId {x : Nat} {a : List Nat} (h : a.Nodup) : (insertId x a).Nodup := by
  by_cases hx : x ∈ a
  · simpa [insertId, hx] using h
  · simp [insertId, hx, List.nodup_append, h]

/-- Membership after folding set insertions. -/
theorem mem_extendIds {c : Nat} (l acc : List Nat) :
    c ∈ extendIds acc l ↔ c ∈ acc ∨ c ∈ l := by
  induction l generalizing acc with
  | nil => simp [extendIds]
  | cons x l ih =>
      rw [extendIds, ih, mem_insertId]
      simp
      tauto

/-- Folding set insertions preserves the no-duplicates invariant. -/
theorem nodup_extendIds (l acc : List Nat) (h : acc.Nodup) : (extendIds acc l).Nodup := by
  induction l generalizing acc with
  | nil => simpa [extendIds] using h
  | cons x l ih => exact ih _ (nodup_insertId h)

/-- Membership in the first-seen deduplication. -/
theorem mem_dedupFirst {c : Nat} (l : List Nat) : c ∈ dedupFirst l ↔ c ∈ l := by
  rw [dedupFirst, mem_extendIds]
  simp

/-- The first-seen deduplication has no duplicates. -/
theorem nodup_dedupFirst (l : List Nat) : (dedupFirst l).Nodup :=
  nodup_extendIds l [] List.nodup_nil

/-!  Claim theorems. -/

/-- Claim C1, amended: for every document type and workflow action,
invoking the action on a document whose status is not in the action's
legal source-state set, by an actor holding the required role, returns an
error response and leaves the stored document (status and all workflow
timestamps) unchanged; the error is the invalid-transition error in every
case except Packing-List reject invoked with empty notes, where the
mandatory-notes validation error is reported instead, because that
handler checks notes before status. -/
theorem C1_invalid_transitions_rejected :
    (∀ (u : User) (now : Nat) (inv : ProformaInvoice),
        (is_maker u || is_admin u) = true →
        ¬ (inv.status = .draft ∨ inv.status = .rework) →
        piSubmitAction u now inv =
          .error (.badRequest "Only Draft/Rework can be submitted."))
  ∧ (∀ (u : User) (now : Nat) (inv : ProformaInvoice),
        (is_checker u || is_admin u) = true →
        ¬ (inv.status = .pending_approval ∨ inv.status = .rework) →
        piApproveAction u now inv =
          .error (.badRequest "Only Pending Approval/Rework can be approved."))
  ∧ (∀ (u : User) (now : Nat) (notes : String) (inv : ProformaInvoice),
        (is_checker u || is_admin u) = true →
        ¬ inv.status = .pending_approval →
        piRejectAction u now notes inv =
          .error (.badRequest "Only Pending Approval can be rejected."))
  ∧ (∀ (u : User) (now : Nat) (ci : CommercialInvoice),
        (is_maker u || is_admin u) = true →
        ¬ (ci.status = .draft ∨ ci.status = .rejected) →
        ciSubmitAction u now ci =
          .error (.badRequest "Only Draft/Rejected can be submitted."))
  ∧ (∀ (u : User) (now : Nat) (ci : CommercialInvoice),
        (is_checker u || is_admin u) = true →
        ¬ (ci.status = .pending_approval ∨ ci.status = .rejected) →
        ciApproveAction u now ci =
          .error (.badRequest "Only Pending Approval/Rejected can be approved."))
  ∧ (∀ (u : User) (now : Nat) (notes : String) (ci : CommercialInvoice),
        (is_checker u || is_admin u) = true →
        ¬ ci.status = .pending_approval →
        ciRejectAction u now notes ci =
          .error (.badRequest "Only Pending Approval can be rejected."))
  ∧ (∀ (u : User) (now : Nat) (ci : CommercialInvoice),
        (is_checker u || is_admin u) = true →
        ¬ ci.status = .approved →
        ciDisableAction u now ci =
          .error (.badRequest "Only Approved invoices can be disabled."))
  ∧ (∀ (u : User) (now : Nat) (pl : PackingList),
        (is_maker u || is_admin u) = true →
        ¬ (pl.status = .draft ∨ pl.status = .rework) →
        plSubmitAction u now pl =
          .error (.badRequest "Only Draft/Rework can be submitted."))
  ∧ (∀ (u : User) (now : Nat) (pl : PackingList),
        (is_checker u || is_admin u) = true →
        ¬ pl.status = .pending_approval →
        plApproveAction u now pl =
          .error (.badRequest "Only Pending Approval can be approved."))
  ∧ (∀ (u : User) (now : Nat) (notes : String) (pl : PackingList),
        (is_checker u || is_admin u) = true →
        ¬ pl.status = .pending_approval →
        (notes ≠ "" →
          plRejectAction u now notes pl =
            .error (.badRequest "Only Pending Approval can be rejected."))
      ∧ (notes = "" →
          plRejectAction u now notes pl =
            .error (.badRequest "Rejection requires comments for rework.")))
  ∧ (∀ (pre : ProformaInvoice) (e : ApiResponseError),
        storedDoc pre (Except.error e : Except ApiResponseError (ProformaInvoice × List AuditRow)) = pre)
  ∧ (∀ (pre : CommercialInvoice) (e : ApiResponseError),
        storedDoc pre (Except.error e : Except ApiResponseError (CommercialInvoice × List AuditRow)) = pre)
  ∧ (∀ (pre : PackingList) (e : ApiResponseError),
        storedDoc pre (Except.error e : Except ApiResponseError (PackingList × List AuditRow)) = pre) := by
  refine ⟨?_, ?_, ?_, ?_, ?_, ?_, ?_, ?_, ?_, ?_, ?_, ?_, ?_⟩
  · intro u now inv h1 h2
    simp [piSubmitAction, h1, h2]
  · intro u now inv h1 h2
    simp [piApproveAction, h1, h2]
  · intro u now notes inv h1 h2
    simp [piRejectAction, h1, h2]
  · intro u now ci h1 h2
    simp [ciSubmitAction, h1, h2]
  · intro u now ci h1 h2
    simp [ciApproveAction, h1, h2]
  · intro u now notes ci h1 h2
    simp [ciRejectAction, h1, h2]
  · intro u now ci h1 h2
    simp [ciDisableAction, h1, h2]
  · intro u now pl h1 h2
    simp [plSubmitAction, h1, h2]
  · intro u now pl h1 h2
    simp [plApproveAction, h1, h2]
  · intro u now notes pl h1 h2
    constructor
    · intro hn
      simp [plRejectAction, h1, h2, hn]
    · intro hn
      simp [plRejectAction, h1, hn]
  · intro pre e
    rfl
  · intro pre e
    rfl
  · intro pre e
    rfl

/-- Claim C1 counterexample: a Checker invoking reject on a DRAFT Packing
List (a status outside reject's legal source set) with empty notes gets
the mandatory-notes validation error, not an invalid-transition error, so
the claim as stated fails at this input. -/
theorem C1_counterexample :
    plRejectAction userChecker 5 "" plDraft
      = .error (.badRequest "Rejection requires comments for rework.")
  ∧ isInvalidTransitionDetail (.badRequest "Rejection requires comments for rework.") = false :=
  ⟨rfl, rfl⟩

/-- Witness for C1: every hypothesis-bearing conjunct instantiated at a
concrete actor and document. -/
theorem C1_witness :
    piSubmitAction userMaker 5 piApproved =
      .error (.badRequest "Only Draft/Rework can be submitted.")
  ∧ piApproveAction userChecker 5 piApproved =
      .error (.badRequest "Only Pending Approval/Rework can be approved.")
  ∧ piRejectAction userChecker 5 "x" piApproved =
      .error (.badRequest "Only Pending Approval can be rejected.")
  ∧ ciSubmitAction userMaker 5 ciApproved =
      .error (.badRequest "Only Draft/Rejected can be submitted.")
  ∧ ciApproveAction userChecker 5 ciApproved =
      .error (.badRequest "Only Pending Approval/Rejected can be approved.")
  ∧ ciRejectAction userChecker 5 "x" ciApproved =
      .error (.badRequest "Only Pending Approval can be rejected.")
  ∧ ciDisableAction userChecker 5 ciDraft =
      .error (.badRequest "Only Approved invoices can be disabled.")
  ∧ plSubmitAction userMaker 5 plApproved =
      .error (.badRequest "Only Draft/Rework can be submitted.")
  ∧ plApproveAction userChecker 5 plApproved =
      .error (.badRequest "Only Pending Approval can be approved.")
  ∧ plRejectAction userChecker 5 "x" plApproved =
      .error (.badRequest "Only Pending Approval can be rejected.")
  ∧ plRejectAction userChecker 5 "" plApproved =
      .error (.badRequest "Rejection requires comments for rework.")
  ∧ storedDoc piApproved
      (Except.error (.badRequest "e") : Except ApiResponseError (ProformaInvoice × List AuditRow))
      = piApproved
  ∧ storedDoc ciApproved
      (Except.error (.badRequest "e") : Except ApiResponseError (CommercialInvoice × List AuditRow))
      = ciApproved
  ∧ storedDoc plApproved
      (Except.error (.badRequest "e") : Except ApiResponseError (PackingList × List AuditRow))
      = plApproved := by
  obtain ⟨h1, h2, h3, h4, h5, h6, h7, h8, h9, h10, h11, h12, h13⟩ :=
    C1_invalid_transitions_rejected
  exact ⟨h1 userMaker 5 piApproved (by decide) (by decide),
    h2 userChecker 5 piApproved (by decide) (by decide),
    h3 userChecker 5 "x" piApproved (by decide) (by decide),
    h4 userMaker 5 ciApproved (by decide) (by decide),
    h5 userChecker 5 ciApproved (by decide) (by decide),
    h6 userChecker 5 "x" ciApproved (by decide) (by decide),
    h7 userChecker 5 ciDraft (by decide) (by decide),
    h8 userMaker 5 plApproved (by decide) (by decide),
    h9 userChecker 5 plApproved (by decide) (by decide),
    (h10 userChecker 5 "x" plApproved (by decide) (by decide)).1 (by decide),
    (h10 userChecker 5 "" plApproved (by decide) (by decide)).2 rfl,
    h11 piApproved (.badRequest "e"),
    h12 ciApproved (.badRequest "e"),
    h13 plApproved (.badRequest "e")⟩

/-- Claim C3, code bug: for every Packing List and every actor holding
the checker or admin role, permanently_reject does not succeed; it fails
with an uncaught AttributeError (the model defines neither
STATUS_PERMANENTLY_REJECTED nor permanently_rejected_at) and the stored
row is unchanged.  The claim's transition to a PERMANENTLY_REJECTED
terminal state is unreachable: PLStatus, taken from the model's
STATUS_CHOICES, has no such state. -/
theorem C3_permanently_reject_crashes :
    ∀ (u : User) (pl : PackingList),
      (is_checker u || is_admin u) = true →
      plPermanentlyRejectAction u pl = .error (.serverError
        "AttributeError: type object PackingList has no attribute STATUS_PERMANENTLY_REJECTED")
      ∧ storedDoc pl (plPermanentlyRejectAction u pl) = pl := by
  intro u pl h
  refine ⟨?_, ?_⟩
  · simp [plPermanentlyRejectAction, h]
  · simp [plPermanentlyRejectAction, h, storedDoc]

/-- Witness for C3: a Checker invoking permanently_reject on a DRAFT
Packing List. -/
theorem C3_witness :
    plPermanentlyRejectAction userChecker plDraft = .error (.serverError
      "AttributeError: type object PackingList has no attribute STATUS_PERMANENTLY_REJECTED")
  ∧ storedDoc plDraft (plPermanentlyRejectAction userChecker plDraft) = plDraft :=
  C3_permanently_reject_crashes userChecker plDraft (by decide)

/-- Claim C4, amended: for Proforma and Commercial Invoices, every
successfully executed status-changing transition (submit, approve,
reject, disable, deactivate) writes exactly one audit-trail row recording
the action constant, the acting user, the request timestamp, and the
notes; Packing List transitions (submit, approve, reject) write no audit
row at all (the source notes its audit trail is not implemented). -/
theorem C4_audit_rows :
    (∀ (u : User) (now : Nat) (inv : ProformaInvoice),
        (is_maker u || is_admin u) = true →
        (inv.status = .draft ∨ inv.status = .rework) →
        piSubmitAction u now inv = .ok (inv.submit now,
          [{ action := "SUBMITTED", actor := u.id, timestamp := now, notes := "" }]))
  ∧ (∀ (u : User) (now : Nat) (inv : ProformaInvoice),
        (is_checker u || is_admin u) = true →
        (inv.status = .pending_approval ∨ inv.status = .rework) →
        piApproveAction u now inv = .ok (inv.approve now (some u.id),
          [{ action := "APPROVED", actor := u.id, timestamp := now, notes := "" }]))
  ∧ (∀ (u : User) (now : Nat) (notes : String) (inv : ProformaInvoice),
        (is_checker u || is_admin u) = true →
        inv.status = .pending_approval →
        piRejectAction u now notes inv = .ok (inv.reject_to_rework now (some u.id),
          [{ action := "REJECTED", actor := u.id, timestamp := now, notes := notes }]))
  ∧ (∀ (u : User) (now : Nat) (inv : ProformaInvoice),
        (is_admin u ∨ (is_maker u ∧ inv.status = .draft)) →
        piDeactivateAction u now inv =
          .ok ({ inv with is_active := false, deactivated_at := some now },
            [{ action := "DEACTIVATED", actor := u.id, timestamp := now, notes := "" }]))
  ∧ (∀ (u : User) (now : Nat) (ci : CommercialInvoice),
        (is_maker u || is_admin u) = true →
        (ci.status = .draft ∨ ci.status = .rejected) →
        ciSubmitAction u now ci = .ok (ci.submit now,
          [{ action := "SUBMITTED", actor := u.id, timestamp := now, notes := "" }]))
  ∧ (∀ (u : User) (now : Nat) (ci : CommercialInvoice),
        (is_checker u || is_admin u) = true →
        (ci.status = .pending_approval ∨ ci.status = .rejected) →
        ciApproveAction u now ci = .ok (ci.approve now (some u.id),
          [{ action := "APPROVED", actor := u.id, timestamp := now, notes := "" }]))
  ∧ (∀ (u : User) (now : Nat) (notes : String) (ci : CommercialInvoice),
        (is_checker u || is_admin u) = true →
        ci.status = .pending_approval →
        pyStrip notes ≠ "" →
        ciRejectAction u now notes ci = .ok (ci.reject now (some u.id),
          [{ action := "REJECTED", actor := u.id, timestamp := now, notes := pyStrip notes }]))
  ∧ (∀ (u : User) (now : Nat) (ci : CommercialInvoice),
        (is_checker u || is_admin u) = true →
        ci.status = .approved →
        ciDisableAction u now ci = .ok (ci.disable now,
          [{ action := "DISABLED", actor := u.id, timestamp := now, notes := "" }]))
  ∧ (∀ (u : User) (now : Nat) (ci : CommercialInvoice),
        ¬ ci.status = .disabled →
        (is_checker u || is_admin u) = true →
        ciDeactivateAction u now ci =
          .ok ({ ci with is_active := false, deactivated_at := some now },
            [{ action := "DISABLED", actor := u.id, timestamp := now, notes := "Record deactivated" }]))
  ∧ (∀ (u : User) (now : Nat) (pl : PackingList),
        (is_maker u || is_admin u) = true →
        (pl.status = .draft ∨ pl.status = .rework) →
        plSubmitAction u now pl =
          .ok ({ pl with status := .pending_approval, submitted_at := some now }, []))
  ∧ (∀ (u : User) (now : Nat) (pl : PackingList),
        (is_checker u || is_admin u) = true →
        pl.status = .pending_approval →
        plApproveAction u now pl =
          .ok ({ pl with status := .approved, approved_at := some now, last_checker := some u.id },
            []))
  ∧ (∀ (u : User) (now : Nat) (notes : String) (pl : PackingList),
        (is_checker u || is_admin u) = true →
        notes ≠ "" →
        pl.status = .pending_approval →
        plRejectAction u now notes pl =
          .ok ({ pl with status := .rework, reworked_at := some now, last_checker := some u.id },
            [])) := by
  refine ⟨?_, ?_, ?_, ?_, ?_, ?_, ?_, ?_, ?_, ?_, ?_, ?_⟩
  · intro u now inv h1 h2
    simp [piSubmitAction, h1, h2]
  · intro u now inv h1 h2
    simp [piApproveAction, h1, h2]
  · intro u now notes inv h1 h2
    simp [piRejectAction, h1, h2]
  · intro u now inv h1
    simp [piDeactivateAction, h1]
  · intro u now ci h1 h2
    simp [ciSubmitAction, h1, h2]
  · intro u now ci h1 h2
    simp [ciApproveAction, h1, h2]
  · intro u now notes ci h1 h2 h3
    simp [ciRejectAction, h1, h2, h3]
  · intro u now ci h1 h2
    simp [ciDisableAction, h1, h2]
  · intro u now ci h1 h2
    simp [ciDeactivateAction, h1, h2]
  · intro u now pl h1 h2
    simp [plSubmitAction, h1, h2]
  · intro u now pl h1 h2
    simp [plApproveAction, h1, h2]
  · intro u now notes pl h1 h2 h3
    simp [plRejectAction, h1, h2, h3]

/-- Claim C4 counterexample: a Maker submitting a DRAFT Packing List
succeeds, and the transition writes zero audit rows, not one. -/
theorem C4_counterexample :
    ¬ (∀ out : PackingList × List AuditRow,
        plSubmitAction userMaker 5 plDraft = .ok out → out.2.length = 1) := by
  intro hcl
  have h := hcl ({ plDraft with status := .pending_approval, submitted_at := some 5 }, []) rfl
  simp at h

/-- Witness for C4: every conjunct instantiated at a concrete actor,
timestamp, and document in the action's legal source state. -/
theorem C4_witness :
    piSubmitAction userMaker 5 piDraft = .ok (piDraft.submit 5,
      [{ action := "SUBMITTED", actor := userMaker.id, timestamp := 5, notes := "" }])
  ∧ piApproveAction userChecker 5 piPending = .ok (piPending.approve 5 (some userChecker.id),
      [{ action := "APPROVED", actor := userChecker.id, timestamp := 5, notes := "" }])
  ∧ piRejectAction userChecker 5 "fix" piPending = .ok (piPending.reject_to_rework 5 (some userChecker.id),
      [{ action := "REJECTED", actor := userChecker.id, timestamp := 5, notes := "fix" }])
  ∧ piDeactivateAction userMaker 5 piDraft =
      .ok ({ piDraft with is_active := false, deactivated_at := some 5 },
        [{ action := "DEACTIVATED", actor := userMaker.id, timestamp := 5, notes := "" }])
  ∧ ciSubmitAction userMaker 5 ciDraft = .ok (ciDraft.submit 5,
      [{ action := "SUBMITTED", actor := userMaker.id, timestamp := 5, notes := "" }])
  ∧ ciApproveAction userChecker 5 ciPending = .ok (ciPending.approve 5 (some userChecker.id),
      [{ action := "APPROVED", actor := userChecker.id, timestamp := 5, notes := "" }])
  ∧ ciRejectAction userChecker 5 "fix" ciPending = .ok (ciPending.reject 5 (some userChecker.id),
      [{ action := "REJECTED", actor := userChecker.id, timestamp := 5, notes := pyStrip "fix" }])
  ∧ ciDisableAction userChecker 5 ciApproved = .ok (ciApproved.disable 5,
      [{ action := "DISABLED", actor := userChecker.id, timestamp := 5, notes := "" }])
  ∧ ciDeactivateAction userChecker 5 ciApproved =
      .ok ({ ciApproved with is_active := false, deactivated_at := some 5 },
        [{ action := "DISABLED", actor := userChecker.id, timestamp := 5, notes := "Record deactivated" }])
  ∧ plSubmitAction userMaker 5 plDraft =
      .ok ({ plDraft with status := .pending_approval, submitted_at := some 5 }, [])
  ∧ plApproveAction userChecker 5 plPending =
      .ok ({ plPending with status := .approved, approved_at := some 5, last_checker := some userChecker.id },
        [])
  ∧ plRejectAction userChecker 5 "fix" plPending =
      .ok ({ plPending with status := .rework, reworked_at := some 5, last_checker := some userChecker.id },
        []) := by
  obtain ⟨h1, h2, h3, h4, h5, h6, h7, h8, h9, h10, h11, h12⟩ := C4_audit_rows
  exact ⟨h1 userMaker 5 piDraft (by decide) (by decide),
    h2 userChecker 5 piPending (by decide) (by decide),
    h3 userChecker 5 "fix" piPending (by decide) (by decide),
    h4 userMaker 5 piDraft (by decide),
    h5 userMaker 5 ciDraft (by decide) (by decide),
    h6 userChecker 5 ciPending (by decide) (by decide),
    h7 userChecker 5 "fix" ciPending (by decide) (by decide) (by decide),
    h8 userChecker 5 ciApproved (by decide) (by decide),
    h9 userChecker 5 ciApproved (by decide) (by decide),
    h10 userMaker 5 plDraft (by decide) (by decide),
    h11 userChecker 5 plPending (by decide) (by decide),
    h12 userChecker 5 "fix" plPending (by decide) (by decide) (by decide)⟩

/-- Claim C5: immediately after any create, update, or deactivate of a
line item — at the model save level and through each line-item endpoint
of both invoice types — the parent document's stored total_amount_usd
equals the sum of the amounts of its currently-active line items; the
recomputation is part of the same operation. -/
theorem C5_total_invariant :
    (∀ (inv : ProformaInvoice) (it : LineItem),
        (piLineItemSave inv it).total_amount_usd =
          activeTotal (piLineItemSave inv it).line_items)
  ∧ (∀ (ci : CommercialInvoice) (it : LineItem),
        (ciLineItemSave ci it).total_amount_usd =
          activeTotal (ciLineItemSave ci it).line_items)
  ∧ (∀ (u : User) (now : Nat) (it : LineItem) (inv : ProformaInvoice)
        (out : ProformaInvoice × List AuditRow),
        piAddLineItemAction u now it inv = .ok out →
        out.1.total_amount_usd = activeTotal out.1.line_items)
  ∧ (∀ (u : User) (now : Nat) (it : LineItem) (inv : ProformaInvoice)
        (out : ProformaInvoice × List AuditRow),
        piUpdateLineItemAction u now it inv = .ok out →
        out.1.total_amount_usd = activeTotal out.1.line_items)
  ∧ (∀ (u : User) (now : Nat) (itemId : Nat) (inv : ProformaInvoice)
        (out : ProformaInvoice × List AuditRow),
        piDeactivateLineItemAction u now itemId inv = .ok out →
        out.1.total_amount_usd = activeTotal out.1.line_items)
  ∧ (∀ (u : User) (now : Nat) (it : LineItem) (ci : CommercialInvoice)
        (out : CommercialInvoice × List AuditRow),
        ciAddLineItemAction u now it ci = .ok out →
        out.1.total_amount_usd = activeTotal out.1.line_items)
  ∧ (∀ (u : User) (now : Nat) (it : LineItem) (ci : CommercialInvoice)
        (out : CommercialInvoice × List AuditRow),
        ciUpdateLineItemAction u now it ci = .ok out →
        out.1.total_amount_usd = activeTotal out.1.line_items)
  ∧ (∀ (u : User) (now : Nat) (itemId : Nat) (ci : CommercialInvoice)
        (out : CommercialInvoice × List AuditRow),
        ciDeactivateLineItemAction u now itemId ci = .ok out →
        out.1.total_amount_usd = activeTotal out.1.line_items) := by
  refine ⟨fun inv it => rfl, fun ci it => rfl, ?_, ?_, ?_, ?_, ?_, ?_⟩
  · intro u now it inv out h
    unfold piAddLineItemAction at h
    split at h
    · cases h
      rfl
    · exact Except.noConfusion h
  · intro u now it inv out h
    unfold piUpdateLineItemAction at h
    split at h
    · split at h
      · cases h
        rfl
      · exact Except.noConfusion h
    · exact Except.noConfusion h
  · intro u now itemId inv out h
    unfold piDeactivateLineItemAction at h
    split at h
    · split at h
      · exact Except.noConfusion h
      · cases h
        rfl
    · exact Except.noConfusion h
  · intro u now it ci out h
    unfold ciAddLineItemAction at h
    split at h
    · cases h
      rfl
    · exact Except.noConfusion h
  · intro u now it ci out h
    unfold ciUpdateLineItemAction at h
    split at h
    · split at h
      · cases h
        rfl
      · exact Except.noConfusion h
    · exact Except.noConfusion h
  · intro u now itemId ci out h
    unfold ciDeactivateLineItemAction at h
    split at h
    · split at h
      · exact Except.noConfusion h
      · cases h
        rfl
    · exact Except.noConfusion h

/-- Witness for C5: each endpoint conjunct applied at a concrete
operation (admin creates a fresh item; admin updates the stored item;
admin deactivates the only active item, leaving an empty active set). -/
theorem C5_witness :
    (piLineItemSave piDraft itemQ3P2).total_amount_usd =
      activeTotal (piLineItemSave piDraft itemQ3P2).line_items
  ∧ (ciLineItemSave ciDraft itemQ3P2).total_amount_usd =
      activeTotal (ciLineItemSave ciDraft itemQ3P2).line_items
  ∧ (piLineItemSave piWithItem { itemQ3P2 with id := 1 }).total_amount_usd =
      activeTotal (piLineItemSave piWithItem { itemQ3P2 with id := 1 }).line_items
  ∧ ({ piWithItem with
         line_items := [{ itemStored2 with is_active := false, deactivated_at := some 5 }],
         total_amount_usd :=
           activeTotal [{ itemStored2 with is_active := false, deactivated_at := some 5 }] }
       : ProformaInvoice).total_amount_usd =
      activeTotal [{ itemStored2 with is_active := false, deactivated_at := some 5 }]
  ∧ (ciLineItemSave ciWithItem { itemQ3P2 with id := 1 }).total_amount_usd =
      activeTotal (ciLineItemSave ciWithItem { itemQ3P2 with id := 1 }).line_items
  ∧ (storedDoc ciWithItem (ciDeactivateLineItemAction userAdmin 5 1 ciWithItem)).total_amount_usd =
      activeTotal (storedDoc ciWithItem (ciDeactivateLineItemAction userAdmin 5 1 ciWithItem)).line_items := by
  obtain ⟨h1, h2, h3, h4, h5, h6, h7, h8⟩ := C5_total_invariant
  refine ⟨?_, ?_, ?_, ?_, ?_, ?_⟩
  · exact h3 userAdmin 5 itemQ3P2 piDraft (piLineItemSave piDraft itemQ3P2,
      [{ action := "EDITED", actor := userAdmin.id, timestamp := 5, notes := "Line item added" }]) rfl
  · exact h6 userAdmin 5 itemQ3P2 ciDraft (ciLineItemSave ciDraft itemQ3P2,
      [{ action := "EDITED", actor := userAdmin.id, timestamp := 5, notes := "Line item added" }]) rfl
  · exact h4 userAdmin 5 { itemQ3P2 with id := 1 } piWithItem
      (piLineItemSave piWithItem { itemQ3P2 with id := 1 },
       [{ action := "EDITED", actor := userAdmin.id, timestamp := 5, notes := "Line item updated" }]) rfl
  · exact h5 userAdmin 5 1 piWithItem
      ({ piWithItem with
           line_items := [{ itemStored2 with is_active := false, deactivated_at := some 5 }],
           total_amount_usd :=
             activeTotal [{ itemStored2 with is_active := false, deactivated_at := some 5 }] },
       [{ action := "EDITED", actor := userAdmin.id, timestamp := 5, notes := "Line item deleted" }]) rfl
  · exact h7 userAdmin 5 { itemQ3P2 with id := 1 } ciWithItem
      (ciLineItemSave ciWithItem { itemQ3P2 with id := 1 },
       [{ action := "EDITED", actor := userAdmin.id, timestamp := 5, notes := "Line item updated" }]) rfl
  · exact h8 userAdmin 5 1 ciWithItem
      (storedDoc ciWithItem (ciDeactivateLineItemAction userAdmin 5 1 ciWithItem),
       [{ action := "EDITED", actor := userAdmin.id, timestamp := 5, notes := "Line item deleted" }]) rfl

/-- Claim C6: for every saved line item of either invoice type with
non-None quantity and unit price, the stored amount is exactly the
product quantity × unit_price (the quantize step, fed a DecimalTuple,
always raises and the fallback stores the unrounded product), so the
amount equals quantity × unit_price with zero rounding error; both
documents' save paths store the item through this computation. -/
theorem C6_amount_is_product :
    (∀ (it : LineItem) (q p : Rat),
        it.quantity = some q → it.unit_price_usd = some p →
        (savedLineItem it).amount_usd = q * p)
  ∧ (∀ (inv : ProformaInvoice) (it : LineItem),
        (piLineItemSave inv it).line_items = saveItemList inv.line_items (savedLineItem it))
  ∧ (∀ (ci : CommercialInvoice) (it : LineItem),
        (ciLineItemSave ci it).line_items = saveItemList ci.line_items (savedLineItem it)) := by
  refine ⟨?_, fun inv it => rfl, fun ci it => rfl⟩
  intro it q p hq hp
  simp [savedLineItem, computeAmount, hq, hp]

/-- Witness for C6: the item with quantity 3 and unit price 2 is stored
with amount 3 × 2. -/
theorem C6_witness : (savedLineItem itemQ3P2).amount_usd = 3 * 2 :=
  C6_amount_is_product.1 itemQ3P2 3 2 rfl rfl

/-- Claim C7, amended: once a Commercial Invoice is DISABLED, header
updates are rejected for every actor (admin included), deactivation of
the invoice is rejected, no workflow action changes the stored document,
and line-item add/edit/deactivate are rejected for every non-admin actor;
however an admin can still add, edit, or deactivate line items (the edit
gate grants admin in every status), so content can change after DISABLED
through admin line-item operations. -/
theorem C7_disabled_read_only :
    (∀ (u : User) (now : Nat) (upd : CommercialInvoice → CommercialInvoice)
        (ci : CommercialInvoice), ci.status = .disabled →
        ciUpdateAction u now upd ci =
          .error (.forbidden "Approved/Disabled invoices are read-only."))
  ∧ (∀ (u : User) (now : Nat) (ci : CommercialInvoice), ci.status = .disabled →
        ciDeactivateAction u now ci =
          .error (.badRequest "Disabled invoices cannot be deactivated."))
  ∧ (∀ (u : User) (now : Nat) (ci : CommercialInvoice), ci.status = .disabled →
        storedDoc ci (ciSubmitAction u now ci) = ci)
  ∧ (∀ (u : User) (now : Nat) (ci : CommercialInvoice), ci.status = .disabled →
        storedDoc ci (ciApproveAction u now ci) = ci)
  ∧ (∀ (u : User) (now : Nat) (notes : String) (ci : CommercialInvoice),
        ci.status = .disabled →
        storedDoc ci (ciRejectAction u now notes ci) = ci)
  ∧ (∀ (u : User) (now : Nat) (ci : CommercialInvoice), ci.status = .disabled →
        storedDoc ci (ciDisableAction u now ci) = ci)
  ∧ (∀ (u : User) (ci : CommercialInvoice), ci.status = .disabled →
        is_admin u = false → ci_can_edit u ci = false)
  ∧ (∀ (u : User) (now : Nat) (it : LineItem) (ci : CommercialInvoice),
        ci.status = .disabled → is_admin u = false →
        ciAddLineItemAction u now it ci =
          .error (.forbidden "Not allowed to add line items."))
  ∧ (∀ (u : User) (now : Nat) (it : LineItem) (ci : CommercialInvoice),
        ci.status = .disabled → is_admin u = false →
        ciUpdateLineItemAction u now it ci =
          .error (.forbidden "Not allowed to edit line items."))
  ∧ (∀ (u : User) (now : Nat) (itemId : Nat) (ci : CommercialInvoice),
        ci.status = .disabled → is_admin u = false →
        ciDeactivateLineItemAction u now itemId ci =
          .error (.forbidden "Not allowed to delete line items."))
  ∧ (∀ (u : User) (now : Nat) (it : LineItem) (ci : CommercialInvoice),
        ci.status = .disabled → is_admin u = true →
        ciAddLineItemAction u now it ci = .ok (ciLineItemSave ci it,
          [{ action := "EDITED", actor := u.id, timestamp := now,
             notes := "Line item added" }])) := by
  refine ⟨?_, ?_, ?_, ?_, ?_, ?_, ?_, ?_, ?_, ?_, ?_⟩
  · intro u now upd ci h
    simp [ciUpdateAction, h]
  · intro u now ci h
    simp [ciDeactivateAction, h]
  · intro u now ci h
    unfold ciSubmitAction
    split <;> simp [h, storedDoc]
  · intro u now ci h
    unfold ciApproveAction
    split <;> simp [h, storedDoc]
  · intro u now notes ci h
    unfold ciRejectAction
    split <;> simp [h, storedDoc]
  · intro u now ci h
    unfold ciDisableAction
    split <;> simp [h, storedDoc]
  · intro u ci h hadm
    simp [ci_can_edit, h, hadm]
  · intro u now it ci h hadm
    simp [ciAddLineItemAction, ci_can_edit, h, hadm]
  · intro u now it ci h hadm
    simp [ciUpdateLineItemAction, ci_can_edit, h, hadm]
  · intro u now itemId ci h hadm
    simp [ciDeactivateLineItemAction, ci_can_edit, h, hadm]
  · intro u now it ci h hadm
    simp [ciAddLineItemAction, ci_can_edit, hadm]

/-- Claim C7 counterexample: an admin adding a line item to a DISABLED
Commercial Invoice succeeds and changes the stored document, so the
claim's full immutability fails at this input. -/
theorem C7_counterexample :
    ¬ (∀ out : CommercialInvoice × List AuditRow,
        ciAddLineItemAction userAdmin 5 itemQ3P2 ciDisabledFx = .ok out →
        out.1 = ciDisabledFx) := by
  intro hcl
  have h := hcl (ciLineItemSave ciDisabledFx itemQ3P2,
    [{ action := "EDITED", actor := userAdmin.id, timestamp := 5,
       notes := "Line item added" }]) rfl
  have hlen := congrArg (fun d => d.line_items.length) h
  simp [ciLineItemSave, saveItemList, CommercialInvoice.recalc_total,
    ciDisabledFx, ciDraft] at hlen

/-- Witness for C7: every conjunct instantiated at the DISABLED fixture. -/
theorem C7_witness :
    ciUpdateAction userAdmin 5 id ciDisabledFx =
      .error (.forbidden "Approved/Disabled invoices are read-only.")
  ∧ ciDeactivateAction userAdmin 5 ciDisabledFx =
      .error (.badRequest "Disabled invoices cannot be deactivated.")
  ∧ storedDoc ciDisabledFx (ciSubmitAction userAdmin 5 ciDisabledFx) = ciDisabledFx
  ∧ storedDoc ciDisabledFx (ciApproveAction userAdmin 5 ciDisabledFx) = ciDisabledFx
  ∧ storedDoc ciDisabledFx (ciRejectAction userAdmin 5 "n" ciDisabledFx) = ciDisabledFx
  ∧ storedDoc ciDisabledFx (ciDisableAction userAdmin 5 ciDisabledFx) = ciDisabledFx
  ∧ ci_can_edit userChecker ciDisabledFx = false
  ∧ ciAddLineItemAction userMaker 5 itemQ3P2 ciDisabledFx =
      .error (.forbidden "Not allowed to add line items.")
  ∧ ciUpdateLineItemAction userMaker 5 itemQ3P2 ciDisabledFx =
      .error (.forbidden "Not allowed to edit line items.")
  ∧ ciDeactivateLineItemAction userChecker 5 1 ciDisabledFx =
      .error (.forbidden "Not allowed to delete line items.")
  ∧ ciAddLineItemAction userAdmin 5 itemQ3P2 ciDisabledFx =
      .ok (ciLineItemSave ciDisabledFx itemQ3P2,
        [{ action := "EDITED", actor := userAdmin.id, timestamp := 5,
           notes := "Line item added" }]) := by
  obtain ⟨h1, h2, h3, h4, h5, h6, h7, h8, h9, h10, h11⟩ := C7_disabled_read_only
  exact ⟨h1 userAdmin 5 id ciDisabledFx (by decide),
    h2 userAdmin 5 ciDisabledFx (by decide),
    h3 userAdmin 5 ciDisabledFx (by decide),
    h4 userAdmin 5 ciDisabledFx (by decide),
    h5 userAdmin 5 "n" ciDisabledFx (by decide),
    h6 userAdmin 5 ciDisabledFx (by decide),
    h7 userChecker ciDisabledFx (by decide) (by decide),
    h8 userMaker 5 itemQ3P2 ciDisabledFx (by decide) (by decide),
    h9 userMaker 5 itemQ3P2 ciDisabledFx (by decide) (by decide),
    h10 userChecker 5 1 ciDisabledFx (by decide) (by decide),
    h11 userAdmin 5 itemQ3P2 ciDisabledFx (by decide) (by decide)⟩

/-- Claim C8: the generated number is the type prefix, the year, and a
4-digit zero-padded sequence equal to one more than the count of existing
numbers starting with that prefix; with no pre-existing PI-2025-* rows
the first Proforma Invoice number of 2025 is PI-2025-0001 and, once it is
stored, the next is PI-2025-0002; the number is generated only at first
save of a row without one. -/
theorem C8_numbering :
    (∀ (year : Nat) (existing : List String),
        pi_generate_number year existing =
          ("PI-" ++ Nat.repr year ++ "-") ++
            pad4 ((existing.filter
              (fun num => pyStartsWith num ("PI-" ++ Nat.repr year ++ "-"))).length + 1))
  ∧ (∀ existing : List String,
        (existing.filter (fun num => pyStartsWith num "PI-2025-")).length = 0 →
        pi_generate_number 2025 existing = "PI-2025-0001"
      ∧ pi_generate_number 2025 (existing ++ ["PI-2025-0001"]) = "PI-2025-0002")
  ∧ (∀ (number : String) (year : Nat) (existing : List String),
        number ≠ "" → pi_number_on_first_save number year existing = number) := by
  refine ⟨fun year existing => rfl, ?_, ?_⟩
  · intro existing h
    have hpre : ("PI-" ++ Nat.repr 2025 ++ "-") = "PI-2025-" := rfl
    constructor
    · simp only [pi_generate_number, hpre, h]
      rfl
    · simp only [pi_generate_number, hpre, List.filter_append, List.length_append, h]
      rfl
  · intro number year existing h
    simp [pi_number_on_first_save, h]

/-- Witness for C8: two non-matching numbers exist; the first generated
2025 number is PI-2025-0001, the next PI-2025-0002; a row that already
has a number keeps it. -/
theorem C8_witness :
    pi_generate_number 2025 ["CI-2025-0001", "PL-2025-0007"] = "PI-2025-0001"
  ∧ pi_generate_number 2025 (["CI-2025-0001", "PL-2025-0007"] ++ ["PI-2025-0001"]) =
      "PI-2025-0002"
  ∧ pi_number_on_first_save "PI-2024-0009" 2025 [] = "PI-2024-0009" := by
  obtain ⟨h1, h2, h3⟩ := C8_numbering
  obtain ⟨ha, hb⟩ := h2 ["CI-2025-0001", "PL-2025-0007"] (by decide)
  exact ⟨ha, hb, h3 "PI-2024-0009" 2025 [] (by decide)⟩

/-- Claim C10: recalc_total always stores the active-item sum in
total_amount_usd, writes that sum into the separate amount field only
when amount is None or zero, and leaves a nonzero amount unchanged; in
the concrete fixture the kept amount 5 differs from the recomputed
total 7. -/
theorem C10_recalc_amount_mirror :
    (∀ ci : CommercialInvoice,
        (ci.recalc_total).total_amount_usd = activeTotal ci.line_items)
  ∧ (∀ (ci : CommercialInvoice) (a : Rat),
        ci.amount = some a → a ≠ 0 → (ci.recalc_total).amount = some a)
  ∧ (∀ ci : CommercialInvoice,
        (ci.amount = none ∨ ci.amount = some 0) →
        (ci.recalc_total).amount = some (activeTotal ci.line_items))
  ∧ ((ciAmt5.recalc_total).amount = some 5
      ∧ (ciAmt5.recalc_total).total_amount_usd = 7
      ∧ (5 : Rat) ≠ 7) := by
  refine ⟨fun ci => rfl, ?_, ?_, ?_, ?_, ?_⟩
  · intro ci a ha h0
    simp [CommercialInvoice.recalc_total, ha, h0]
  · intro ci h
    simp only [CommercialInvoice.recalc_total]
    rw [if_pos h]
  · rfl
  · simp [CommercialInvoice.recalc_total, activeTotal, ciAmt5, ciDraft, itemStored7]
  · decide

/-- Witness for C10: the nonzero amount 5 is kept; a zero amount is
overwritten with the active total. -/
theorem C10_witness :
    (ciAmt5.recalc_total).amount = some 5
  ∧ (ciDraft.recalc_total).amount = some (activeTotal ciDraft.line_items) := by
  obtain ⟨h1, h2, h3, h4⟩ := C10_recalc_amount_mirror
  exact ⟨h2 ciAmt5 5 rfl (by decide), h3 ciDraft (Or.inr rfl)⟩

/-- Claim C2: aggregation of an APPROVED Packing List partitions the
active items of active containers by (item code, UOM id): a key has a
group iff some active pair carries it; a group's quantity is the sum of
its members' quantities and its container_ids are exactly the distinct
contributing container ids; the marker "In every container" is appended
to the emitted description exactly when more than one distinct container
contributed and the marker is not already present (never appended twice);
and the two-container ITM-1/KG example with quantities 100 and 150 yields
exactly one proposed line item with summed quantity 250 and the marker
appended. -/
theorem C2_aggregation :
    (∀ (cs : List PackingListContainer) (k : AggKey),
        lookupGroup (aggregateGroups cs) k = none ↔
          ∀ p ∈ contItemPairs cs, itemKey p.2 ≠ k)
  ∧ (∀ (cs : List PackingListContainer) (k : AggKey) (g : AggGroup),
        lookupGroup (aggregateGroups cs) k = some g →
          g.quantity = contribQty (contItemPairs cs) k
        ∧ (∀ c : Nat, c ∈ g.container_ids ↔ c ∈ contribIds (contItemPairs cs) k)
        ∧ g.container_ids.Nodup)
  ∧ (∀ g : AggGroup,
        (g.container_ids.length > 1 →
          pyContains g.description everyContainerMarker = false →
          (lineItemOfGroup g).description =
            pyStrip (g.description ++ " " ++ everyContainerMarker))
      ∧ (g.container_ids.length ≤ 1 → (lineItemOfGroup g).description = g.description)
      ∧ (pyContains g.description everyContainerMarker = true →
          (lineItemOfGroup g).description = g.description))
  ∧ aggregate_from_packing_list .approved [exCont1, exCont2] = .ok [exAggLine] := by
  refine ⟨?_, ?_, ?_, ?_⟩
  · intro cs k
    rw [lookup_aggregateGroups, aggSpec_none]
  · intro cs k g h
    rw [lookup_aggregateGroups] at h
    obtain ⟨p₀, hfind, h1, h2, h3, h4, h5, h6, h7⟩ := aggSpec_some _ _ _ h
    refine ⟨h6, ?_, ?_⟩
    · intro c
      rw [h7, mem_dedupFirst]
    · rw [h7]
      exact nodup_dedupFirst _
  · intro g
    refine ⟨?_, ?_, ?_⟩
    · intro hlen hmark
      simp [lineItemOfGroup, markedDescription, hlen, hmark]
    · intro hlen
      have hno : ¬ g.container_ids.length > 1 := by omega
      simp [lineItemOfGroup, markedDescription, hno]
    · intro hmark
      by_cases hlen : g.container_ids.length > 1
      · simp [lineItemOfGroup, markedDescription, hlen, hmark]
      · simp [lineItemOfGroup, markedDescription, hlen]
  · have h250 : (100 : Rat) + 150 = 250 := by norm_num
    calc aggregate_from_packing_list .approved [exCont1, exCont2]
        = .ok [{ exAggLine with quantity := (100 : Rat) + 150 }] := rfl
      _ = .ok [exAggLine] := by
        rw [h250]
        rfl

/-- Witness for C2: the hypothesis-bearing conjuncts instantiated: the
one-keyless-item packing list yields the solo group (quantity and
container characterization), a two-container group gets the marker
appended, a one-container group and an already-marked group keep their
descriptions. -/
theorem C2_witness :
    (exSoloGroup.quantity = contribQty (contItemPairs [exKSolo]) ("", 0)
      ∧ (∀ c : Nat, c ∈ exSoloGroup.container_ids ↔
            c ∈ contribIds (contItemPairs [exKSolo]) ("", 0))
      ∧ exSoloGroup.container_ids.Nodup)
  ∧ (lineItemOfGroup exTwoIdsGroup).description =
      pyStrip (exTwoIdsGroup.description ++ " " ++ everyContainerMarker)
  ∧ (lineItemOfGroup exSoloGroup).description = exSoloGroup.description
  ∧ (lineItemOfGroup exMarkedGroup).description = exMarkedGroup.description := by
  obtain ⟨hA, hB, hC, hD⟩ := C2_aggregation
  exact ⟨hB [exKSolo] ("", 0) exSoloGroup rfl,
    (hC exTwoIdsGroup).1 (by decide) (by decide),
    (hC exSoloGroup).2.1 (by decide),
    (hC exMarkedGroup).2.2 (by decide)⟩

/-- Claim C9: in the aggregation grouping (identical in the aggregate
endpoint and the create-from-packing-list step), a missing or empty item
code keys as "" and a missing UOM keys as 0, so every pair of active
keyless items shares the single key ("", 0) and is merged into one group
carrying the first-seen item's HS code, description, and packages text;
the concrete two-container keyless example merges two items with entirely
different descriptive fields into one group with the first item's
metadata. -/
theorem C9_keyless_merge :
    (∀ it : PackingListContainerItem,
        (it.item_code = none ∨ it.item_code = some "") → it.uom = none →
        itemKey it = ("", 0))
  ∧ (∀ (cs : List PackingListContainer) (g : AggGroup)
        (p₀ : Nat × PackingListContainerItem),
        lookupGroup (aggregateGroups cs) ("", 0) = some g →
        (contItemPairs cs).find? (fun p => decide (itemKey p.2 = ("", 0))) = some p₀ →
          g.hs_code = pyOrStr p₀.2.hsn_code ""
        ∧ g.description = pyOrStr p₀.2.description_of_goods ""
        ∧ g.packages_number_and_kind = pyOrStr p₀.2.packages_number_and_kind "")
  ∧ (aggregateGroups [exKCont1, exKCont2]).length = 1
  ∧ lookupGroup (aggregateGroups [exKCont1, exKCont2]) ("", 0) = some exMergedGroup := by
  refine ⟨?_, ?_, ?_, ?_⟩
  · intro it hc hu
    rcases hc with hc | hc <;> simp [itemKey, pyOrStr, hc, hu]
  · intro cs g p₀ h hfind
    rw [lookup_aggregateGroups] at h
    obtain ⟨p₁, hfind1, h1, h2, h3, h4, h5, h6, h7⟩ := aggSpec_some _ _ _ h
    rw [hfind] at hfind1
    obtain rfl := Option.some.inj hfind1
    exact ⟨h1, h3, h4⟩
  · rfl
  · have h50 : (5 : Rat) + 0 = 5 := by norm_num
    calc lookupGroup (aggregateGroups [exKCont1, exKCont2]) ("", 0)
        = some { exMergedGroup with quantity := (5 : Rat) + 0 } := rfl
      _ = some exMergedGroup := by
        rw [h50]
        rfl

/-- Witness for C9: the keyless fixture item keys as ("", 0), and the
one-keyless-item packing list's group carries that item's HS code,
description, and packages text. -/
theorem C9_witness :
    itemKey exKeyless1 = ("", 0)
  ∧ (exSoloGroup.hs_code = pyOrStr exKeyless1.hsn_code ""
    ∧ exSoloGroup.description = pyOrStr exKeyless1.description_of_goods ""
    ∧ exSoloGroup.packages_number_and_kind = pyOrStr exKeyless1.packages_number_and_kind "") := by
  obtain ⟨h1, h2, h3, h4⟩ := C9_keyless_merge
  exact ⟨h1 exKeyless1 (Or.inl rfl) rfl,
    h2 [exKSolo] exSoloGroup (51, exKeyless1) rfl rfl⟩

end OfficeApps
